import Mathlib

/-!
Shallow embedding of `selenium-search/fetch.py` (headless Selenium fetcher).

The browser driver is modelled as an oracle (`World`) recording what each
Selenium call would return or whether it would raise.  `fetchRun` embeds the
Python function `fetch` and returns the result (`Except FetchErr String`,
mirroring return-value vs. raised-exception) together with a trace of the
driver operations performed, in order.  `mainRun` embeds `main` and returns
the exit code, stdout lines, stderr lines, and the trace of the underlying
fetch (empty when `fetch` was never called).
-/

namespace SeleniumFetch

/-- One element returned by `driver.find_elements`: its visible `.text` and
its serialized `outerHTML`. -/
structure Elem where
  text : String
  outerHTML : String
deriving DecidableEq, Repr

/-- Oracle for the driver: what each Selenium call would do for this request.
`buildOk` — `build_driver` succeeds (else it raises a WebDriverException);
`navOk` — `driver.get` completes within the page-load timeout (else it raises);
`loadReady` — the `document.readyState` wait succeeds before its deadline
(else `TimeoutException`); `selectorFound` — the selector-presence wait
succeeds before its deadline (else `TimeoutException`);
`matchedElems` — what `find_elements(By.CSS_SELECTOR, selector)` returns;
`bodyText` — `some t` when `find_element(By.TAG_NAME, "body")` succeeds and
its `.text` is `t`, `none` when that call raises;
`pageSource` — `driver.page_source`;
`screenshotOk` — `driver.save_screenshot` succeeds (else it raises);
`quitOk` — `driver.quit` succeeds (else it raises);
the `…ErrMsg` fields are the exception messages for the fallible calls. -/
structure World where
  buildOk : Bool
  navOk : Bool
  loadReady : Bool
  selectorFound : Bool
  matchedElems : List Elem
  bodyText : Option String
  pageSource : String
  screenshotOk : Bool
  quitOk : Bool
  buildErrMsg : String
  navErrMsg : String
  screenshotErrMsg : String
deriving DecidableEq, Repr

/-- Driver operations, in the order `fetch` performs them. -/
inductive Event where
  | build
  | setPageLoadTimeout (t : Int)
  | navigate (url : String)
  | waitLoad (deadline : Int) (ready : Bool)
  | sleepFixed (secs : Rat)
  | waitSelector (sel : String) (deadline : Int) (found : Bool)
  | screenshot (path : String)
  | findElements (sel : String)
  | readBodyText
  | readPageSource
  | quit (ok : Bool)
deriving DecidableEq, Repr

/-- Exceptions `fetch` can raise.  All three are WebDriverException
subclasses in the source (TimeoutException included). -/
inductive FetchErr where
  | buildFailed (msg : String)
  | navFailed (msg : String)
  | screenshotFailed (msg : String)
deriving DecidableEq, Repr

/-- Python truthiness of an optional string argument: `if selector:` (and
`if screenshot_path:`) is false for both `None` and the empty string.  The
argument is immutable during `fetch`/`main`, so normalising `some ""` to
`none` once is equivalent to testing truthiness at every use site. -/
def normSel : Option String → Option String
  | some s => if s = "" then none else some s
  | none => none

/-- ASCII whitespace stripped by Python's `str.strip()` (Python also strips
some Unicode space characters; the inputs in this development are ASCII). -/
def isPySpace (c : Char) : Bool :=
  c == ' ' || c == '\t' || c == '\n' || c == '\r' || c == '\x0b' || c == '\x0c'

/-- Python `url.strip()`: drop whitespace from both ends. -/
def pyStrip (s : String) : String :=
  String.mk (((s.data.dropWhile isPySpace).reverse.dropWhile isPySpace).reverse)

/-- Python `u.startswith(p)`: literal, case-sensitive prefix test. -/
def strStartsWith (s p : String) : Bool :=
  List.isPrefixOf p.data s.data

/-- `validate_url` (fetch.py lines 93-99): strip, reject empty, reject a
string not starting with the literal prefixes, return the stripped string. -/
def validate_url (url : String) : Except String String :=
  let u := pyStrip url
  if u = "" then Except.error "empty_url"
  else if strStartsWith u "http://" ∨ strStartsWith u "https://" then Except.ok u
  else Except.error "url_must_start_with_http_or_https"

/-- Whole-document extraction (fetch.py lines 157-166): in text mode the
body's visible text, falling back to `page_source` when the body element
cannot be located; in markup mode `page_source`. -/
def fullPageValue (w : World) (as_text : Bool) : String :=
  if as_text then
    match w.bodyText with
    | some t => t
    | none => w.pageSource
  else w.pageSource

/-- The read operations performed by whole-document extraction. -/
def fullPageReads (w : World) (as_text : Bool) : List Event :=
  if as_text then
    match w.bodyText with
    | some _ => [Event.readBodyText]
    | none => [Event.readPageSource]
  else [Event.readPageSource]

/-- Content extraction (fetch.py lines 144-166), for a normalised selector:
with a truthy selector and a non-empty match list, join the matched elements
(text mode: visible texts, empty ones skipped, as in the comprehension
`[e.text for e in elems if e.text]`; markup mode: outerHTML of each) with a
blank line; otherwise fall through to whole-document extraction. -/
def extractValue (w : World) (sel : Option String) (as_text : Bool) : String :=
  match sel with
  | some _ =>
    if w.matchedElems ≠ [] then
      if as_text then
        String.intercalate "\n\n"
          ((w.matchedElems.filter (fun e => e.text ≠ "")).map Elem.text)
      else
        String.intercalate "\n\n" (w.matchedElems.map Elem.outerHTML)
    else fullPageValue w as_text
  | none => fullPageValue w as_text

/-- The read operations performed by content extraction. -/
def extractReads (w : World) (sel : Option String) (as_text : Bool) : List Event :=
  match sel with
  | some s =>
    if w.matchedElems ≠ [] then [Event.findElements s]
    else Event.findElements s :: fullPageReads w as_text
  | none => fullPageReads w as_text

/-- The wait stages between navigation and extraction (fetch.py lines
117-138): the readyState wait under deadline `timeout`, the optional fixed
sleep, and — for a truthy selector — the selector-presence wait, also under
deadline `timeout`.  Both wait timeouts are caught (`except TimeoutException:
pass`), so the outcome is recorded in the trace but changes nothing else. -/
def waitEvents (w : World) (timeout : Int) (wait_seconds : Rat)
    (sel : Option String) : List Event :=
  [Event.waitLoad timeout w.loadReady]
    ++ (if 0 < wait_seconds then [Event.sleepFixed wait_seconds] else [])
    ++ (match sel with
        | some s => [Event.waitSelector s timeout w.selectorFound]
        | none => [])

/-- The `try` block of `fetch` (fetch.py lines 110-166): build the driver,
set the page-load timeout, navigate, run the waits, take the screenshot if
requested, extract.  `Except.error` is a raised exception escaping the
`try` body. -/
def fetchBody (w : World) (url : String) (timeout : Int) (wait_seconds : Rat)
    (selector : Option String) (as_text : Bool) (screenshot_path : Option String) :
    Except FetchErr String × List Event :=
  if w.buildOk then
    let pre := [Event.build, Event.setPageLoadTimeout timeout, Event.navigate url]
    if w.navOk then
      let sel := normSel selector
      let pre2 := pre ++ waitEvents w timeout wait_seconds sel
      match normSel screenshot_path with
      | some p =>
        if w.screenshotOk then
          (Except.ok (extractValue w sel as_text),
            pre2 ++ [Event.screenshot p] ++ extractReads w sel as_text)
        else (Except.error (FetchErr.screenshotFailed w.screenshotErrMsg), pre2)
      | none =>
        (Except.ok (extractValue w sel as_text), pre2 ++ extractReads w sel as_text)
    else (Except.error (FetchErr.navFailed w.navErrMsg), pre)
  else (Except.error (FetchErr.buildFailed w.buildErrMsg), [])

/-- `fetch` (fetch.py lines 102-173): the `try` body followed by the
`finally` block, which quits the driver when one was built and swallows any
exception `quit` raises (`except Exception: pass`), so the body's result is
returned unchanged. -/
def fetchRun (w : World) (url : String) (timeout : Int) (wait_seconds : Rat)
    (selector : Option String) (as_text : Bool) (screenshot_path : Option String) :
    Except FetchErr String × List Event :=
  let r := fetchBody w url timeout wait_seconds selector as_text screenshot_path
  (r.1, r.2 ++ (if w.buildOk then [Event.quit w.quitOk] else []))

/-- Parsed CLI arguments of `main`. -/
structure Args where
  url : String
  timeout : Int
  wait : Rat
  selector : Option String
  text : Bool
  screenshot : Option String
deriving DecidableEq, Repr

/-- Observable outcome of one `main` invocation. -/
structure MainResult where
  exitCode : Nat
  stdout : List String
  stderr : List String
  events : List Event
deriving DecidableEq, Repr

def modeStr (as_text : Bool) : String := if as_text then "text" else "html"

/-- The stdout header block printed on success (fetch.py lines 214-220). -/
def headerLines (url : String) (a : Args) : List String :=
  ["[selenium-fetch] url=" ++ url]
    ++ (match normSel a.selector with
        | some s =>
          ["[selenium-fetch] selector=" ++ s ++ " mode=" ++ modeStr a.text]
        | none => ["[selenium-fetch] mode=" ++ modeStr a.text])
    ++ (match normSel a.screenshot with
        | some p => ["[selenium-fetch] screenshot=" ++ p]
        | none => [])

/-- The 80-dash separator line printed between the header and the content. -/
def sepLine : String := String.pushn "" '-' 80

/-- The stderr line printed when `fetch` raises.  Every modelled fetch
failure is a WebDriverException subclass, so the source's first `except`
branch applies: `error: selenium_webdriver_failed: <detail>`. -/
def errLine : FetchErr → String
  | FetchErr.buildFailed msg => "error: selenium_webdriver_failed: " ++ msg
  | FetchErr.navFailed msg => "error: selenium_webdriver_failed: " ++ msg
  | FetchErr.screenshotFailed msg => "error: selenium_webdriver_failed: " ++ msg

/-- `main` (fetch.py lines 176-224): validate the URL (exit 2 on failure,
before any driver work), call `fetch` on the validated URL (exit 1 when it
raises), and on success print the header block, the separator, and the
content, returning exit 0. -/
def mainRun (w : World) (a : Args) : MainResult :=
  match validate_url a.url with
  | Except.error msg => ⟨2, [], ["error: " ++ msg], []⟩
  | Except.ok url =>
    match fetchRun w url a.timeout a.wait a.selector a.text a.screenshot with
    | (Except.error e, tr) => ⟨1, [], [errLine e], tr⟩
    | (Except.ok content, tr) =>
      ⟨0, headerLines url a ++ [sepLine, content], [], tr⟩

/-- `w` with the `driver.quit` outcome replaced. -/
def withQuitOk (w : World) (b : Bool) : World :=
  ⟨w.buildOk, w.navOk, w.loadReady, w.selectorFound, w.matchedElems,
    w.bodyText, w.pageSource, w.screenshotOk, b,
    w.buildErrMsg, w.navErrMsg, w.screenshotErrMsg⟩

/-- Recognise a `quit` attempt in the trace. -/
def isQuitEvent : Event → Bool
  | Event.quit _ => true
  | _ => false

/-- Recognise a written screenshot in the trace. -/
def isScreenshotEvent : Event → Bool
  | Event.screenshot _ => true
  | _ => false

/-- Recognise a content-extraction read in the trace. -/
def isReadEvent : Event → Bool
  | Event.findElements _ => true
  | Event.readBodyText => true
  | Event.readPageSource => true
  | _ => false

/-- Recognise a session start (`webdriver.Chrome` succeeding) in the trace. -/
def isBuildEvent : Event → Bool
  | Event.build => true
  | _ => false

/-- Concrete worlds for witnesses, varying only where a witness needs it. -/
def mkWorld (buildOk navOk loadReady selectorFound : Bool) (elems : List Elem)
    (bodyText : Option String) (pageSource : String)
    (screenshotOk quitOk : Bool) : World :=
  ⟨buildOk, navOk, loadReady, selectorFound, elems, bodyText, pageSource,
    screenshotOk, quitOk, "bmsg", "nmsg", "smsg"⟩

/- ### Helper lemmas (shared) -/

theorem validate_url_error_of_invalid (url : String)
    (h : pyStrip url = "" ∨
      (strStartsWith (pyStrip url) "http://" = false ∧
        strStartsWith (pyStrip url) "https://" = false)) :
    ∃ msg, validate_url url = Except.error msg := by
  unfold validate_url
  rcases h with h | ⟨h1, h2⟩
  · exact ⟨"empty_url", by simp [h]⟩
  · by_cases he : pyStrip url = ""
    · exact ⟨"empty_url", by simp [he]⟩
    · exact ⟨"url_must_start_with_http_or_https", by simp [he, h1, h2]⟩

theorem fetchRun_trace_head (w : World) (url : String) (t : Int) (ws : Rat)
    (sel : Option String) (m : Bool) (sp : Option String)
    (hb : w.buildOk = true) :
    ∃ rest, (fetchRun w url t ws sel m sp).2 =
      Event.build :: Event.setPageLoadTimeout t :: Event.navigate url :: rest := by
  cases hn : w.navOk
  · exact ⟨[Event.quit w.quitOk], by simp [fetchRun, fetchBody, hb, hn]⟩
  · cases hsp : normSel sp
    · exact ⟨waitEvents w t ws (normSel sel) ++
        (extractReads w (normSel sel) m ++ [Event.quit w.quitOk]),
        by simp [fetchRun, fetchBody, hb, hn, hsp]⟩
    · cases hso : w.screenshotOk
      · exact ⟨waitEvents w t ws (normSel sel) ++ [Event.quit w.quitOk],
          by simp [fetchRun, fetchBody, hb, hn, hsp, hso]⟩
      · rename_i p
        exact ⟨waitEvents w t ws (normSel sel) ++
          (Event.screenshot p :: (extractReads w (normSel sel) m ++
            [Event.quit w.quitOk])),
          by simp [fetchRun, fetchBody, hb, hn, hsp, hso]⟩

theorem navigate_mem_fetchRun (w : World) (url : String) (t : Int) (ws : Rat)
    (sel : Option String) (m : Bool) (sp : Option String)
    (hb : w.buildOk = true) :
    Event.navigate url ∈ (fetchRun w url t ws sel m sp).2 := by
  obtain ⟨rest, hr⟩ := fetchRun_trace_head w url t ws sel m sp hb
  rw [hr]
  simp

theorem mainRun_events_eq_fetch_trace (w : World) (a : Args) (url : String)
    (hv : validate_url a.url = Except.ok url) :
    (mainRun w a).events =
      (fetchRun w url a.timeout a.wait a.selector a.text a.screenshot).2 := by
  rcases hfr : fetchRun w url a.timeout a.wait a.selector a.text a.screenshot
    with ⟨res, tr⟩
  cases res <;> simp [mainRun, hv, hfr]

/- ### Claims -/

/-- Claim C9: URL validation strips leading and trailing whitespace and then
does a case-sensitive prefix check; the value passed on (and navigated) is
the stripped string; a whitespace-only input is rejected as empty; an
uppercase-scheme input is rejected; the bare string "http://" is accepted. -/
theorem c9_validate_url_semantics :
    (∀ u v, validate_url u = Except.ok v → v = pyStrip u)
    ∧ (∀ u : String, (∀ c ∈ u.data, isPySpace c = true) →
        validate_url u = Except.error "empty_url")
    ∧ validate_url "HTTP://example.com" =
        Except.error "url_must_start_with_http_or_https"
    ∧ validate_url "http://" = Except.ok "http://"
    ∧ (∀ (w : World) (a : Args) (v : String), w.buildOk = true →
        validate_url a.url = Except.ok v →
        Event.navigate v ∈ (mainRun w a).events) := by
  refine ⟨?_, ?_, rfl, rfl, ?_⟩
  · intro u v h
    unfold validate_url at h
    by_cases he : pyStrip u = ""
    · simp [he] at h
    · by_cases hp : strStartsWith (pyStrip u) "http://" ∨
        strStartsWith (pyStrip u) "https://"
      · simp [he, hp] at h
        exact h.symm
      · simp [he, hp] at h
  · intro u hall
    have hstrip : pyStrip u = "" := by
      have hd : u.data.dropWhile isPySpace = [] :=
        List.dropWhile_eq_nil_iff.mpr hall
      simp [pyStrip, hd]
    unfold validate_url
    simp [hstrip]
  · intro w a v hb hv
    rw [mainRun_events_eq_fetch_trace w a v hv]
    exact navigate_mem_fetchRun w v a.timeout a.wait a.selector a.text
      a.screenshot hb

/-- Witness for C9 at concrete inputs: the accepted value is the stripped
string, and main navigates to exactly that stripped string. -/
theorem c9_validate_url_semantics_witness :
    ("http://x.com" : String) = pyStrip "  http://x.com " ∧
    Event.navigate "http://x.com" ∈
      (mainRun (mkWorld true true true true [] (some "B") "S" true true)
        ⟨"  http://x.com ", 20, 0, none, false, none⟩).events := by
  constructor
  · exact c9_validate_url_semantics.1 "  http://x.com " "http://x.com" rfl
  · exact c9_validate_url_semantics.2.2.2.2
      (mkWorld true true true true [] (some "B") "S" true true)
      ⟨"  http://x.com ", 20, 0, none, false, none⟩ "http://x.com" rfl rfl

/-- Claim C2: an invalid URL (empty after stripping, or not starting with
http:// or https://) makes the program exit with code 2 and never starts a
browser session: the driver trace is empty, so the session-start counter
stays at zero. -/
theorem c2_invalid_url_never_starts_session (w : World) (a : Args)
    (h : pyStrip a.url = "" ∨
      (strStartsWith (pyStrip a.url) "http://" = false ∧
        strStartsWith (pyStrip a.url) "https://" = false)) :
    (mainRun w a).exitCode = 2 ∧ (mainRun w a).events = [] ∧
    (mainRun w a).events.countP isBuildEvent = 0 := by
  obtain ⟨msg, hv⟩ := validate_url_error_of_invalid a.url h
  simp [mainRun, hv]

/-- Witness for C2: a concrete invalid URL exits 2 with an empty trace. -/
theorem c2_invalid_url_never_starts_session_witness :
    (mainRun (mkWorld true true true true [] (some "B") "S" true true)
        ⟨"notaurl", 20, 0, none, false, none⟩).exitCode = 2 ∧
    (mainRun (mkWorld true true true true [] (some "B") "S" true true)
        ⟨"notaurl", 20, 0, none, false, none⟩).events = [] ∧
    (mainRun (mkWorld true true true true [] (some "B") "S" true true)
        ⟨"notaurl", 20, 0, none, false, none⟩).events.countP isBuildEvent = 0 :=
  c2_invalid_url_never_starts_session
    (mkWorld true true true true [] (some "B") "S" true true)
    ⟨"notaurl", 20, 0, none, false, none⟩
    (Or.inr ⟨rfl, rfl⟩)

theorem normSel_none : normSel none = none := rfl

theorem normSel_some (s : String) (hs : s ≠ "") : normSel (some s) = some s := by
  simp [normSel, hs]

theorem extractValue_nil_fallback (w : World) (s : String) (m : Bool)
    (hm : w.matchedElems = []) :
    extractValue w (normSel (some s)) m = extractValue w none m := by
  by_cases hs : s = "" <;> simp [normSel, hs, extractValue, hm]

/-- Claim C6: when the selector matches zero elements, extraction falls back
silently to whole-document extraction: the extracted value equals the
no-selector value, and the whole fetch returns the same result as a fetch of
the same page with no selector at all. -/
theorem c6_zero_match_fallback (w : World) (url : String) (t : Int) (ws : Rat)
    (s : String) (m : Bool) (sp : Option String)
    (hm : w.matchedElems = []) :
    extractValue w (some s) m = extractValue w none m ∧
    (fetchRun w url t ws (some s) m sp).1 = (fetchRun w url t ws none m sp).1 := by
  constructor
  · simp [extractValue, hm]
  · have hext := extractValue_nil_fallback w s m hm
    cases hb : w.buildOk
    · simp [fetchRun, fetchBody, hb]
    · cases hn : w.navOk
      · simp [fetchRun, fetchBody, hb, hn]
      · cases hsp : normSel sp
        · simp [fetchRun, fetchBody, hb, hn, hsp, normSel_none, hext]
        · cases hso : w.screenshotOk <;>
            simp [fetchRun, fetchBody, hb, hn, hsp, hso, normSel_none, hext]

/-- Witness for C6 at a concrete page with zero matches, in both modes. -/
theorem c6_zero_match_fallback_witness :
    (extractValue (mkWorld true true true true [] (some "B") "SRC" true true)
        (some "p") true =
      extractValue (mkWorld true true true true [] (some "B") "SRC" true true)
        none true) ∧
    ((fetchRun (mkWorld true true true true [] (some "B") "SRC" true true)
        "http://e" 20 0 (some "p") false none).1 =
      (fetchRun (mkWorld true true true true [] (some "B") "SRC" true true)
        "http://e" 20 0 none false none).1) :=
  ⟨(c6_zero_match_fallback (mkWorld true true true true [] (some "B") "SRC"
      true true) "http://e" 20 0 "p" true none rfl).1,
    (c6_zero_match_fallback (mkWorld true true true true [] (some "B") "SRC"
      true true) "http://e" 20 0 "p" false none rfl).2⟩

/-- Claim C5: with a truthy selector matching at least one element, markup
mode returns the matched elements' outerHTML joined by a blank line in
document order, and text mode joins the visible texts the same way,
skipping elements whose visible text is empty. -/
theorem c5_selector_match_join (w : World) (url : String) (t : Int) (ws : Rat)
    (s : String) (m : Bool) (sp : Option String)
    (hb : w.buildOk = true) (hn : w.navOk = true)
    (hsp : normSel sp = none ∨ w.screenshotOk = true)
    (hs : s ≠ "") (hm : w.matchedElems ≠ []) :
    (fetchRun w url t ws (some s) m sp).1 =
      Except.ok (if m then
          String.intercalate "\n\n"
            ((w.matchedElems.filter (fun e => e.text ≠ "")).map Elem.text)
        else String.intercalate "\n\n" (w.matchedElems.map Elem.outerHTML)) := by
  rcases hsp with hsp | hso
  · simp [fetchRun, fetchBody, hb, hn, hsp, normSel_some s hs, extractValue, hm]
  · cases hsp2 : normSel sp
    · simp [fetchRun, fetchBody, hb, hn, hsp2, normSel_some s hs, extractValue,
        hm]
    · simp [fetchRun, fetchBody, hb, hn, hsp2, hso, normSel_some s hs,
        extractValue, hm]

/-- Witness for C5: the two worked examples from the specification — markup
mode on matches with outerHTML p-A and p-B yields them blank-line joined,
and text mode on an empty-text match plus a "Hello" match yields exactly
"Hello". -/
theorem c5_selector_match_join_witness :
    (fetchRun (mkWorld true true true true
        [⟨"A", "<p>A</p>"⟩, ⟨"B", "<p>B</p>"⟩] (some "B") "SRC" true true)
        "http://e" 20 0 (some "p") false none).1 =
      Except.ok "<p>A</p>\n\n<p>B</p>" ∧
    (fetchRun (mkWorld true true true true
        [⟨"", "<p></p>"⟩, ⟨"Hello", "<p>Hello</p>"⟩] (some "B") "SRC" true true)
        "http://e" 20 0 (some "p") true none).1 =
      Except.ok "Hello" :=
  ⟨(c5_selector_match_join (mkWorld true true true true
      [⟨"A", "<p>A</p>"⟩, ⟨"B", "<p>B</p>"⟩] (some "B") "SRC" true true)
      "http://e" 20 0 "p" false none rfl rfl (Or.inl rfl)
      (by decide) (by decide)).trans rfl,
    (c5_selector_match_join (mkWorld true true true true
      [⟨"", "<p></p>"⟩, ⟨"Hello", "<p>Hello</p>"⟩] (some "B") "SRC" true true)
      "http://e" 20 0 "p" true none rfl rfl (Or.inl rfl)
      (by decide) (by decide)).trans rfl⟩

theorem sleep_mem_waitEvents (w : World) (t : Int) (ws : Rat)
    (sel : Option String) (h : 0 < ws) :
    Event.sleepFixed ws ∈ waitEvents w t ws sel := by
  simp [waitEvents, h]

theorem selectorWait_mem_waitEvents (w : World) (t : Int) (ws : Rat)
    (sel : Option String) (s : String) (h : sel = some s) :
    Event.waitSelector s t w.selectorFound ∈ waitEvents w t ws sel := by
  simp [waitEvents, h]

/-- Claim C3: an exhausted load-ready wait or selector wait is not fatal:
the fetch still runs the fixed delay, the selector wait, the screenshot,
and extraction, and returns a result built from the current page state;
the readiness flags never change the returned value. -/
theorem c3_wait_timeout_not_fatal (w : World) (url : String) (t : Int)
    (ws : Rat) (sel : Option String) (m : Bool) (sp : Option String)
    (hb : w.buildOk = true) (hn : w.navOk = true)
    (hto : w.loadReady = false ∨ w.selectorFound = false)
    (hsp : normSel sp = none ∨ w.screenshotOk = true) :
    (fetchRun w url t ws sel m sp).1 =
      Except.ok (extractValue w (normSel sel) m)
    ∧ (0 < ws → Event.sleepFixed ws ∈ (fetchRun w url t ws sel m sp).2)
    ∧ (∀ s, normSel sel = some s →
        Event.waitSelector s t w.selectorFound ∈ (fetchRun w url t ws sel m sp).2)
    ∧ (∀ p, normSel sp = some p →
        Event.screenshot p ∈ (fetchRun w url t ws sel m sp).2) := by
  have hw : ∀ e, e ∈ waitEvents w t ws (normSel sel) →
      e ∈ (fetchRun w url t ws sel m sp).2 := by
    intro e he
    rcases hsp with hsp | hso
    · simp [fetchRun, fetchBody, hb, hn, hsp]
      tauto
    · cases hsp2 : normSel sp
      · simp [fetchRun, fetchBody, hb, hn, hsp2]
        tauto
      · simp [fetchRun, fetchBody, hb, hn, hsp2, hso]
        tauto
  refine ⟨?_, ?_, ?_, ?_⟩
  · rcases hsp with hsp | hso
    · simp [fetchRun, fetchBody, hb, hn, hsp]
    · cases hsp2 : normSel sp
      · simp [fetchRun, fetchBody, hb, hn, hsp2]
      · simp [fetchRun, fetchBody, hb, hn, hsp2, hso]
  · intro hws
    exact hw _ (sleep_mem_waitEvents w t ws (normSel sel) hws)
  · intro s hsel
    exact hw _ (selectorWait_mem_waitEvents w t ws (normSel sel) s hsel)
  · intro p hp
    have hso : w.screenshotOk = true := by
      rcases hsp with hsp | hso

      · rw [hsp] at hp
        exact absurd hp (by simp)
      · exact hso
    simp [fetchRun, fetchBody, hb, hn, hp, hso]

/-- Witness for C3: load-ready wait with timeout 0 immediately exhausted,
fixed delay 1 and a selector requested: the fetch still sleeps, runs the
selector wait, and returns the body text. -/
theorem c3_wait_timeout_not_fatal_witness :
    (fetchRun (mkWorld true true false true [] (some "BodyText") "SRC" true
        true) "http://e" 0 1 (some "p") true none).1 =
      Except.ok "BodyText" ∧
    Event.sleepFixed 1 ∈ (fetchRun (mkWorld true true false true []
        (some "BodyText") "SRC" true true) "http://e" 0 1 (some "p") true
        none).2 ∧
    Event.waitSelector "p" 0 true ∈ (fetchRun (mkWorld true true false true []
        (some "BodyText") "SRC" true true) "http://e" 0 1 (some "p") true
        none).2 := by
  have h := c3_wait_timeout_not_fatal (mkWorld true true false true []
    (some "BodyText") "SRC" true true) "http://e" 0 1 (some "p") true none
    rfl rfl (Or.inl rfl) (Or.inl rfl)
  exact ⟨h.1.trans rfl, h.2.1 (by norm_num), h.2.2.1 "p" rfl⟩

theorem waitEvents_countP_quit (w : World) (t : Int) (ws : Rat)
    (sel : Option String) : (waitEvents w t ws sel).countP isQuitEvent = 0 := by
  cases sel <;> by_cases hws : 0 < ws <;>
    simp [waitEvents, hws, isQuitEvent, List.countP_append, List.countP_cons]

theorem fullPageReads_countP_quit (w : World) (m : Bool) :
    (fullPageReads w m).countP isQuitEvent = 0 := by
  cases m <;> cases hbt : w.bodyText <;>
    simp [fullPageReads, hbt, isQuitEvent, List.countP_cons]

theorem extractReads_countP_quit (w : World) (sel : Option String) (m : Bool) :
    (extractReads w sel m).countP isQuitEvent = 0 := by
  cases sel <;> cases m <;> cases hbt : w.bodyText <;>
    by_cases hm : w.matchedElems = [] <;>
      simp [extractReads, fullPageReads, hbt, hm, isQuitEvent,
        List.countP_cons]

theorem fetchBody_countP_quit (w : World) (url : String) (t : Int) (ws : Rat)
    (sel : Option String) (m : Bool) (sp : Option String) :
    (fetchBody w url t ws sel m sp).2.countP isQuitEvent = 0 := by
  cases hb : w.buildOk
  · simp [fetchBody, hb]
  · cases hn : w.navOk
    · simp [fetchBody, hb, hn, isQuitEvent, List.countP_cons]
    · cases hsp : normSel sp
      · simp [fetchBody, hb, hn, hsp, isQuitEvent, List.countP_cons,
          List.countP_append, waitEvents_countP_quit, extractReads_countP_quit]
      · cases hso : w.screenshotOk <;>
          simp [fetchBody, hb, hn, hsp, hso, isQuitEvent, List.countP_cons,
            List.countP_append, waitEvents_countP_quit,
            extractReads_countP_quit]

theorem fetchBody_quit_independent (w : World) (b : Bool) (url : String)
    (t : Int) (ws : Rat) (sel : Option String) (m : Bool)
    (sp : Option String) :
    fetchBody (withQuitOk w b) url t ws sel m sp =
      fetchBody w url t ws sel m sp := by
  obtain ⟨bo, no, lr, sf, me, bt, ps, so, qo, bm, nm, sm⟩ := w
  simp only [fetchBody, withQuitOk, waitEvents, extractValue, extractReads,
    fullPageValue, fullPageReads]

/-- Claim C1: once a session is acquired (the driver was built), `fetch`
quits the driver exactly once, as the last driver operation, on every exit
path, and an exception raised by `quit` is swallowed: the primary result or
error is unchanged whether `quit` succeeds or raises. -/
theorem c1_session_always_released (w : World) (url : String) (t : Int)
    (ws : Rat) (sel : Option String) (m : Bool) (sp : Option String)
    (b : Bool) (hb : w.buildOk = true) :
    (∃ pre, (fetchRun w url t ws sel m sp).2 = pre ++ [Event.quit w.quitOk]
      ∧ pre.countP isQuitEvent = 0)
    ∧ (fetchRun (withQuitOk w b) url t ws sel m sp).1 =
        (fetchRun w url t ws sel m sp).1 := by
  constructor
  · exact ⟨(fetchBody w url t ws sel m sp).2, by simp [fetchRun, hb],
      fetchBody_countP_quit w url t ws sel m sp⟩
  · simp [fetchRun, fetchBody_quit_independent]

/-- Witness for C1 on the navigation-timeout exit path, with a `quit` that
itself raises: the trace still ends in the (failed) quit and the primary
error is unchanged when the quit outcome is flipped. -/
theorem c1_session_always_released_witness :
    (∃ pre, (fetchRun (mkWorld true false true true [] none "SRC" true false)
        "http://e" 20 0 none false none).2 = pre ++ [Event.quit false]
      ∧ pre.countP isQuitEvent = 0)
    ∧ (fetchRun (withQuitOk (mkWorld true false true true [] none "SRC" true
        false) true) "http://e" 20 0 none false none).1 =
        (fetchRun (mkWorld true false true true [] none "SRC" true false)
          "http://e" 20 0 none false none).1 :=
  c1_session_always_released
    (mkWorld true false true true [] none "SRC" true false)
    "http://e" 20 0 none false none true rfl

/-- Claim C10: `fetch` itself never validates the URL: whenever the driver
can be built, a direct call to `fetch` — with any string whatsoever,
including invalid ones — starts the session and attempts navigation to that
raw string as its very first driver operations; the invalid-URL guard lives
only in `main`, which on validation failure never calls `fetch` (empty
driver trace). -/
theorem c10_fetch_skips_validation (w : World) (url : String) (t : Int)
    (ws : Rat) (sel : Option String) (m : Bool) (sp : Option String)
    (hb : w.buildOk = true) :
    (∃ rest, (fetchRun w url t ws sel m sp).2 =
      Event.build :: Event.setPageLoadTimeout t :: Event.navigate url :: rest)
    ∧ (∀ (a : Args) (msg : String), validate_url a.url = Except.error msg →
        (mainRun w a).events = []) := by
  refine ⟨fetchRun_trace_head w url t ws sel m sp hb, ?_⟩
  intro a msg hv
  simp [mainRun, hv]

/-- Witness for C10: a direct fetch of the invalid string "not a url" still
builds the driver and navigates to it, while main on the same kind of
invalid input produces an empty driver trace. -/
theorem c10_fetch_skips_validation_witness :
    (∃ rest, (fetchRun (mkWorld true true true true [] none "SRC" true true)
        "not a url" 20 0 none false none).2 =
      Event.build :: Event.setPageLoadTimeout 20 ::
        Event.navigate "not a url" :: rest)
    ∧ (mainRun (mkWorld true true true true [] none "SRC" true true)
        ⟨"not a url", 20, 0, none, false, none⟩).events = [] :=
  ⟨(c10_fetch_skips_validation (mkWorld true true true true [] none "SRC"
      true true) "not a url" 20 0 none false none rfl).1,
    (c10_fetch_skips_validation (mkWorld true true true true [] none "SRC"
      true true) "not a url" 20 0 none false none rfl).2
      ⟨"not a url", 20, 0, none, false, none⟩
      "url_must_start_with_http_or_https" rfl⟩

theorem waitEvents_sub_fetchRun (w : World) (url : String) (t : Int)
    (ws : Rat) (sel : Option String) (m : Bool) (sp : Option String)
    (hb : w.buildOk = true) (hn : w.navOk = true) :
    ∀ e, e ∈ waitEvents w t ws (normSel sel) →
      e ∈ (fetchRun w url t ws sel m sp).2 := by
  intro e he
  cases hsp : normSel sp
  · simp [fetchRun, fetchBody, hb, hn, hsp]
    tauto
  · cases hso : w.screenshotOk <;>
      · simp [fetchRun, fetchBody, hb, hn, hsp, hso]
        tauto

theorem waitLoad_mem_waitEvents (w : World) (t : Int) (ws : Rat)
    (sel : Option String) :
    Event.waitLoad t w.loadReady ∈ waitEvents w t ws sel := by
  simp [waitEvents]

theorem waitLoad_deadline_in_waitEvents (w : World) (t : Int) (ws : Rat)
    (sel : Option String) (d : Int) (r : Bool)
    (h : Event.waitLoad d r ∈ waitEvents w t ws sel) : d = t := by
  cases sel <;> by_cases hws : 0 < ws <;> simp [waitEvents, hws] at h <;> tauto

theorem waitSelector_deadline_in_waitEvents (w : World) (t : Int) (ws : Rat)
    (sel : Option String) (s : String) (d : Int) (f : Bool)
    (h : Event.waitSelector s d f ∈ waitEvents w t ws sel) : d = t := by
  cases sel <;> by_cases hws : 0 < ws <;> simp [waitEvents, hws] at h <;> tauto

theorem waitLoad_not_mem_extractReads (w : World) (sel : Option String)
    (m : Bool) (d : Int) (r : Bool) :
    Event.waitLoad d r ∉ extractReads w sel m := by
  cases sel <;> cases m <;> cases hbt : w.bodyText <;>
    by_cases hm : w.matchedElems = [] <;>
      simp [extractReads, fullPageReads, hbt, hm]

theorem waitSelector_not_mem_extractReads (w : World) (sel : Option String)
    (m : Bool) (s : String) (d : Int) (f : Bool) :
    Event.waitSelector s d f ∉ extractReads w sel m := by
  cases sel <;> cases m <;> cases hbt : w.bodyText <;>
    by_cases hm : w.matchedElems = [] <;>
      simp [extractReads, fullPageReads, hbt, hm]

theorem fetchRun_waitLoad_deadline (w : World) (url : String) (t : Int)
    (ws : Rat) (sel : Option String) (m : Bool) (sp : Option String)
    (d : Int) (r : Bool)
    (h : Event.waitLoad d r ∈ (fetchRun w url t ws sel m sp).2) : d = t := by
  cases hb : w.buildOk
  · simp [fetchRun, fetchBody, hb] at h
  · cases hn : w.navOk
    · simp [fetchRun, fetchBody, hb, hn] at h
    · cases hsp : normSel sp
      · simp [fetchRun, fetchBody, hb, hn, hsp,
          waitLoad_not_mem_extractReads] at h
        exact waitLoad_deadline_in_waitEvents w t ws (normSel sel) d r h
      · cases hso : w.screenshotOk <;>
          · simp [fetchRun, fetchBody, hb, hn, hsp, hso,
              waitLoad_not_mem_extractReads] at h
            exact waitLoad_deadline_in_waitEvents w t ws (normSel sel) d r h

theorem fetchRun_waitSelector_deadline (w : World) (url : String) (t : Int)
    (ws : Rat) (sel : Option String) (m : Bool) (sp : Option String)
    (s : String) (d : Int) (f : Bool)
    (h : Event.waitSelector s d f ∈ (fetchRun w url t ws sel m sp).2) :
    d = t := by
  cases hb : w.buildOk
  · simp [fetchRun, fetchBody, hb] at h
  · cases hn : w.navOk
    · simp [fetchRun, fetchBody, hb, hn] at h
    · cases hsp : normSel sp
      · simp [fetchRun, fetchBody, hb, hn, hsp,
          waitSelector_not_mem_extractReads] at h
        exact waitSelector_deadline_in_waitEvents w t ws (normSel sel) s d f h
      · cases hso : w.screenshotOk <;>
          · simp [fetchRun, fetchBody, hb, hn, hsp, hso,
              waitSelector_not_mem_extractReads] at h
            exact waitSelector_deadline_in_waitEvents w t ws (normSel sel)
              s d f h

/-- Counterexample to C4: the deadlines are not independently configurable.
In no reachable fetch does the page-load wait or the selector wait run under
a deadline different from the single configured timeout — the very value
used as the navigation (page-load) timeout. -/
theorem c4_counterexample_single_knob :
    ¬ ∃ (w : World) (url : String) (t : Int) (ws : Rat) (sel : Option String)
        (m : Bool) (sp : Option String) (d : Int),
        ((∃ r, Event.waitLoad d r ∈ (fetchRun w url t ws sel m sp).2)
          ∨ (∃ s f, Event.waitSelector s d f ∈ (fetchRun w url t ws sel m sp).2))
        ∧ d ≠ t := by
  rintro ⟨w, url, t, ws, sel, m, sp, d, h, hne⟩
  rcases h with ⟨r, h⟩ | ⟨s, f, h⟩
  · exact hne (fetchRun_waitLoad_deadline w url t ws sel m sp d r h)
  · exact hne (fetchRun_waitSelector_deadline w url t ws sel m sp s d f h)

/-- Claim C4 (amended): the page-load wait and the selector wait each get a
fresh, full deadline — neither consumes or extends the other's budget — but
that deadline is in both cases the single configured timeout, the same value
installed as the navigation page-load timeout; none of the three deadlines
can be set separately (only the fixed post-ready delay has its own knob). -/
theorem c4_amended_fresh_but_shared_knob (w : World) (url : String) (t : Int)
    (ws : Rat) (sel : Option String) (m : Bool) (sp : Option String)
    (hb : w.buildOk = true) (hn : w.navOk = true) :
    Event.setPageLoadTimeout t ∈ (fetchRun w url t ws sel m sp).2
    ∧ Event.waitLoad t w.loadReady ∈ (fetchRun w url t ws sel m sp).2
    ∧ (∀ s, normSel sel = some s →
        Event.waitSelector s t w.selectorFound ∈ (fetchRun w url t ws sel m sp).2)
    ∧ (∀ d r, Event.waitLoad d r ∈ (fetchRun w url t ws sel m sp).2 → d = t)
    ∧ (∀ s d f, Event.waitSelector s d f ∈ (fetchRun w url t ws sel m sp).2 →
        d = t) := by
  refine ⟨?_, ?_, ?_, ?_, ?_⟩
  · obtain ⟨rest, hr⟩ := fetchRun_trace_head w url t ws sel m sp hb
    rw [hr]
    simp
  · exact waitEvents_sub_fetchRun w url t ws sel m sp hb hn _
      (waitLoad_mem_waitEvents w t ws (normSel sel))
  · intro s hsel
    exact waitEvents_sub_fetchRun w url t ws sel m sp hb hn _
      (selectorWait_mem_waitEvents w t ws (normSel sel) s hsel)
  · intro d r h
    exact fetchRun_waitLoad_deadline w url t ws sel m sp d r h
  · intro s d f h
    exact fetchRun_waitSelector_deadline w url t ws sel m sp s d f h

/-- Witness for the amended C4: with timeout 7, both waits run under
deadline 7, the page-load timeout is 7, and every wait deadline in the
trace is 7. -/
theorem c4_amended_fresh_but_shared_knob_witness :
    Event.setPageLoadTimeout 7 ∈ (fetchRun (mkWorld true true true true []
        none "SRC" true true) "http://e" 7 0 (some "p") false none).2
    ∧ Event.waitLoad 7 true ∈ (fetchRun (mkWorld true true true true []
        none "SRC" true true) "http://e" 7 0 (some "p") false none).2
    ∧ Event.waitSelector "p" 7 true ∈ (fetchRun (mkWorld true true true true
        [] none "SRC" true true) "http://e" 7 0 (some "p") false none).2 := by
  have h := c4_amended_fresh_but_shared_knob (mkWorld true true true true []
    none "SRC" true true) "http://e" 7 0 (some "p") false none rfl rfl
  exact ⟨h.1, h.2.1, h.2.2.1 "p" rfl⟩

theorem waitEvents_countP_screenshot (w : World) (t : Int) (ws : Rat)
    (sel : Option String) :
    (waitEvents w t ws sel).countP isScreenshotEvent = 0 := by
  cases sel <;> by_cases hws : 0 < ws <;>
    simp [waitEvents, hws, isScreenshotEvent, List.countP_append,
      List.countP_cons]

theorem waitEvents_countP_read (w : World) (t : Int) (ws : Rat)
    (sel : Option String) :
    (waitEvents w t ws sel).countP isReadEvent = 0 := by
  cases sel <;> by_cases hws : 0 < ws <;>
    simp [waitEvents, hws, isReadEvent, List.countP_append, List.countP_cons]

theorem extractReads_countP_screenshot (w : World) (sel : Option String)
    (m : Bool) : (extractReads w sel m).countP isScreenshotEvent = 0 := by
  cases sel <;> cases m <;> cases hbt : w.bodyText <;>
    by_cases hm : w.matchedElems = [] <;>
      simp [extractReads, fullPageReads, hbt, hm, isScreenshotEvent,
        List.countP_cons]

/-- Claim C7: with a snapshot path requested, the screenshot is written at
most once; when it is written (driver up, navigation succeeded, capture
succeeded) it is written exactly once, strictly after navigation, the
load wait, the fixed delay and the selector wait, and strictly before any
content-extraction read; and a fetch that fails with the navigation error
has no screenshot write in its trace at all. -/
theorem c7_screenshot_once_after_waits_before_reads (w : World) (url : String)
    (t : Int) (ws : Rat) (sel : Option String) (m : Bool) (p : String)
    (hp : p ≠ "") :
    ((fetchRun w url t ws sel m (some p)).1 =
        Except.error (FetchErr.navFailed w.navErrMsg) →
      (fetchRun w url t ws sel m (some p)).2.countP isScreenshotEvent = 0)
    ∧ (fetchRun w url t ws sel m (some p)).2.countP isScreenshotEvent ≤ 1
    ∧ (w.buildOk = true → w.navOk = true → w.screenshotOk = true →
        ∃ pre post,
          (fetchRun w url t ws sel m (some p)).2 =
            pre ++ Event.screenshot p :: post
          ∧ pre.countP isReadEvent = 0
          ∧ pre.countP isScreenshotEvent = 0
          ∧ post.countP isScreenshotEvent = 0
          ∧ Event.navigate url ∈ pre
          ∧ Event.waitLoad t w.loadReady ∈ pre
          ∧ (0 < ws → Event.sleepFixed ws ∈ pre)
          ∧ (∀ s, normSel sel = some s →
              Event.waitSelector s t w.selectorFound ∈ pre)) := by
  have hps : normSel (some p) = some p := normSel_some p hp
  refine ⟨?_, ?_, ?_⟩
  · intro hres
    cases hb : w.buildOk
    · rw [show (fetchRun w url t ws sel m (some p)).1 =
          Except.error (FetchErr.buildFailed w.buildErrMsg) by
          simp [fetchRun, fetchBody, hb]] at hres
      simp at hres
    · cases hn : w.navOk
      · simp [fetchRun, fetchBody, hb, hn, isScreenshotEvent,
          List.countP_cons]
      · cases hso : w.screenshotOk
        · rw [show (fetchRun w url t ws sel m (some p)).1 =
              Except.error (FetchErr.screenshotFailed w.screenshotErrMsg) by
              simp [fetchRun, fetchBody, hb, hn, hps, hso]] at hres
          simp at hres
        · rw [show (fetchRun w url t ws sel m (some p)).1 =
              Except.ok (extractValue w (normSel sel) m) by
              simp [fetchRun, fetchBody, hb, hn, hps, hso]] at hres
          simp at hres
  · cases hb : w.buildOk
    · simp [fetchRun, fetchBody, hb]
    · cases hn : w.navOk
      · simp [fetchRun, fetchBody, hb, hn, isScreenshotEvent,
          List.countP_cons]
      · cases hso : w.screenshotOk <;>
          simp [fetchRun, fetchBody, hb, hn, hps, hso, isScreenshotEvent,
            List.countP_cons, List.countP_append, waitEvents_countP_screenshot,
            extractReads_countP_screenshot]
  · intro hb hn hso
    refine ⟨Event.build :: Event.setPageLoadTimeout t :: Event.navigate url ::
        waitEvents w t ws (normSel sel),
      extractReads w (normSel sel) m ++ [Event.quit w.quitOk], ?_, ?_, ?_, ?_,
      ?_, ?_, ?_, ?_⟩
    · simp [fetchRun, fetchBody, hb, hn, hps, hso]
    · simp [isReadEvent, List.countP_cons, waitEvents_countP_read]
    · simp [isScreenshotEvent, List.countP_cons,
        waitEvents_countP_screenshot]
    · simp [isScreenshotEvent, List.countP_cons, List.countP_append,
        extractReads_countP_screenshot]
    · simp
    · simp [waitLoad_mem_waitEvents]
    · intro hws
      simp [sleep_mem_waitEvents w t ws (normSel sel) hws]
    · intro s hsel
      simp [selectorWait_mem_waitEvents w t ws (normSel sel) s hsel]

/-- Witness for C7: a concrete successful fetch with a snapshot path shows
the single screenshot between the waits and the extraction reads, and the
navigation-failure conjunct holds with its hypothesis discharged on a
navigation-failing world. -/
theorem c7_screenshot_once_after_waits_before_reads_witness :
    ((fetchRun (mkWorld true false true true [] none "SRC" true true)
        "http://e" 20 0 none false (some "shot.png")).1 =
        Except.error (FetchErr.navFailed "nmsg") →
      (fetchRun (mkWorld true false true true [] none "SRC" true true)
        "http://e" 20 0 none false
        (some "shot.png")).2.countP isScreenshotEvent = 0)
    ∧ (fetchRun (mkWorld true false true true [] none "SRC" true true)
        "http://e" 20 0 none false
        (some "shot.png")).2.countP isScreenshotEvent = 0
    ∧ ∃ pre post,
        (fetchRun (mkWorld true true true true [] none "SRC" true true)
          "http://e" 20 0 none false (some "shot.png")).2 =
          pre ++ Event.screenshot "shot.png" :: post
        ∧ pre.countP isReadEvent = 0
        ∧ post.countP isScreenshotEvent = 0 := by
  have hfail := c7_screenshot_once_after_waits_before_reads
    (mkWorld true false true true [] none "SRC" true true)
    "http://e" 20 0 none false "shot.png" (by decide)
  have hok := (c7_screenshot_once_after_waits_before_reads
    (mkWorld true true true true [] none "SRC" true true)
    "http://e" 20 0 none false "shot.png" (by decide)).2.2 rfl rfl rfl
  refine ⟨hfail.1, hfail.1 rfl, ?_⟩
  obtain ⟨pre, post, h1, h2, _, h4, _⟩ := hok
  exact ⟨pre, post, h1, h2, h4⟩

/-- Counterexample to C8: on a validation failure the stderr line is
`error: <reason>` with no detail component.  Concretely, an empty URL exits
with stderr exactly `error: empty_url`, and that line cannot be written as
`error: <kind>: <detail>` for any kind and detail (it contains a single
colon, the form requires two). -/
theorem c8_counterexample_validation_line_shape :
    (mainRun (mkWorld true true true true [] none "SRC" true true)
        ⟨"", 20, 0, none, false, none⟩).stderr = ["error: empty_url"]
    ∧ ¬ ∃ kind detail : String,
        "error: empty_url" = "error: " ++ kind ++ (": " ++ detail) := by
  constructor
  · rfl
  · rintro ⟨k, d, h⟩
    have h1 : ("error: empty_url").data.count ':' = 1 := rfl
    rw [h] at h1
    simp only [String.data_append, List.count_append] at h1
    have h2 : ("error: ").data.count ':' = 1 := rfl
    have h3 : (": ").data.count ':' = 1 := rfl
    rw [h2, h3] at h1
    omega

/-- Claim C8 (amended): exit code 0 on success with stdout the header block
followed by the content verbatim and empty stderr; exit code 2 on validation
failure and 1 on fetch failure, each with empty stdout and a single stderr
line; the fetch-failure line has the form `error: <kind>: <detail>`, while
the validation-failure line is `error: <reason>` with no detail component. -/
theorem c8_amended_cli_contract (w : World) (a : Args) :
    (∀ msg, validate_url a.url = Except.error msg →
      mainRun w a = ⟨2, [], ["error: " ++ msg], []⟩)
    ∧ (∀ url e tr, validate_url a.url = Except.ok url →
        fetchRun w url a.timeout a.wait a.selector a.text a.screenshot =
          (Except.error e, tr) →
        mainRun w a = ⟨1, [], [errLine e], tr⟩
          ∧ ∃ kind detail, errLine e = "error: " ++ kind ++ (": " ++ detail))
    ∧ (∀ url c tr, validate_url a.url = Except.ok url →
        fetchRun w url a.timeout a.wait a.selector a.text a.screenshot =
          (Except.ok c, tr) →
        mainRun w a = ⟨0, headerLines url a ++ [sepLine, c], [], tr⟩) := by
  refine ⟨?_, ?_, ?_⟩
  · intro msg hv
    simp [mainRun, hv]
  · intro url e tr hv hfr
    refine ⟨by simp [mainRun, hv, hfr], "selenium_webdriver_failed", ?_⟩
    cases e <;> exact ⟨_, rfl⟩
  · intro url c tr hv hfr
    simp [mainRun, hv, hfr]

/-- Witness for the amended C8: the three outcomes at concrete inputs — a
rejected empty URL (exit 2), a navigation failure (exit 1 with a
kind-and-detail stderr line), and a success (exit 0 with header block,
separator and content). -/
theorem c8_amended_cli_contract_witness :
    mainRun (mkWorld true true true true [] none "SRC" true true)
        ⟨"", 20, 0, none, false, none⟩ =
      ⟨2, [], ["error: empty_url"], []⟩
    ∧ (mainRun (mkWorld true false true true [] none "SRC" true true)
        ⟨"http://e", 20, 0, none, false, none⟩ =
      ⟨1, [], ["error: selenium_webdriver_failed: nmsg"],
        [Event.build, Event.setPageLoadTimeout 20, Event.navigate "http://e",
          Event.quit true]⟩
      ∧ ∃ kind detail, errLine (FetchErr.navFailed "nmsg") =
          "error: " ++ kind ++ (": " ++ detail))
    ∧ mainRun (mkWorld true true true true [] none "SRC" true true)
        ⟨"http://e", 20, 0, none, false, none⟩ =
      ⟨0, headerLines "http://e" ⟨"http://e", 20, 0, none, false, none⟩ ++
          [sepLine, "SRC"], [],
        [Event.build, Event.setPageLoadTimeout 20, Event.navigate "http://e",
          Event.waitLoad 20 true, Event.readPageSource, Event.quit true]⟩ := by
  refine ⟨?_, ?_, ?_⟩
  · exact (c8_amended_cli_contract (mkWorld true true true true [] none "SRC"
      true true) ⟨"", 20, 0, none, false, none⟩).1 "empty_url" rfl
  · exact (c8_amended_cli_contract (mkWorld true false true true [] none "SRC"
      true true) ⟨"http://e", 20, 0, none, false, none⟩).2.1 "http://e"
      (FetchErr.navFailed "nmsg")
      [Event.build, Event.setPageLoadTimeout 20, Event.navigate "http://e",
        Event.quit true] rfl rfl
  · exact (c8_amended_cli_contract (mkWorld true true true true [] none "SRC"
      true true) ⟨"http://e", 20, 0, none, false, none⟩).2.2 "http://e" "SRC"
      [Event.build, Event.setPageLoadTimeout 20, Event.navigate "http://e",
        Event.waitLoad 20 true, Event.readPageSource, Event.quit true] rfl rfl

end SeleniumFetch
